import Mathlib

/-!
Verification of the go-enrichable-client resilience layer.

This file gives a shallow embedding of the repository's retry executor,
default retry/backoff policies, circuit breaker state machine and OAuth
token cache, and proves the frozen claims about them.

Conventions of the embedding:
* `time.Time` / `time.Duration` values are nanosecond counts. Instants are
  `Nat` (the Go zero time is `0`; `a.Before(b)` is `a < b`; `IsZero` is
  `= 0`); durations that may be negative are `Int`.
* Go `nil` pointers and `nil` errors are `Option.none`.
* `uint32` / `uint64` counters are `Nat` with an explicit `% 2 ^ 32`
  (resp. `% 2 ^ 64`) at each increment.
* Fallible or panicking code returns `Option`: in particular the default
  retry policies dereference `resp.StatusCode`, so a `nil` response with a
  `nil` error makes them return `none` (the Go code would panic there).
* I/O that does not influence control flow or returned values (draining a
  response body, closing idle connections, the instrumentation hooks) is
  dropped; a comment marks each such point.
-/

/-- Errors observed by the resilience layer. Constructors carry exactly the
data the Go code formats into the corresponding `error` values. -/
inductive GoError where
  | canceled
  | deadlineExceeded
  | transport (msg : String)
  | unexpectedStatus (status : String)
  | bodyFailed (msg : String)
  | openState
  | tooManyRequests
  | giveUpWrap (method url : String) (attempts : Nat) (inner : GoError)
  | giveUpBare (method url : String) (attempts : Nat)
deriving DecidableEq, Repr

/-- The fragment of `http.Response` the retry and breaker logic inspects:
the status code, the `Status` text, and the first value of the
`Retry-After` header (`none` when the header is absent). -/
structure HResponse where
  statusCode : Int
  status : String
  retryAfter : Option String
deriving DecidableEq, Repr

namespace client

/-- Embeds `client.AssertStatusCode` (client/enrichableclient.go): `nil`
responses and statuses in 200..299 or equal to 404 / 304 yield no error;
anything else yields an "unexpected HTTP status" error. -/
def AssertStatusCode (resp : Option HResponse) : Option GoError :=
  match resp with
  | none => none
  | some r =>
    if (200 ≤ r.statusCode ∧ r.statusCode ≤ 299) ∨ r.statusCode = 404 ∨ r.statusCode = 304 then
      none
    else
      some (.unexpectedStatus r.status)

end client

/-- Accumulating digit scan of `strconv.ParseInt`'s base-10 digit loop:
fails on any non-digit character. -/
def digitsValAux (acc : Nat) : List Char → Option Nat
  | [] => some acc
  | c :: cs =>
    if '0' ≤ c ∧ c ≤ '9' then digitsValAux (acc * 10 + (c.toNat - 48)) cs
    else none

/-- Embeds `strconv.ParseInt(s, 10, 64)` as used by `DefaultBackoff`:
an optional sign followed by at least one decimal digit, rejected when the
value does not fit in a signed 64-bit integer. -/
def parseGoInt (s : String) : Option Int :=
  let core : Bool → List Char → Option Int := fun neg ds =>
    match ds with
    | [] => none
    | _ =>
      match digitsValAux 0 ds with
      | none => none
      | some v =>
        if neg then
          if v ≤ 2 ^ 63 then some (-(v : Int)) else none
        else
          if v ≤ 2 ^ 63 - 1 then some (v : Int) else none
  match s.data with
  | [] => none
  | c :: cs =>
    if c = '-' then core true cs
    else if c = '+' then core false cs
    else core false (c :: cs)

namespace middleware

/-- Embeds `middleware.DefaultRetryPolicy` (middleware/retryable.go).
`ctxErr` is the value of `ctx.Err()`. The result is the returned
`(shouldRetry, error)` pair; `none` models the nil-pointer dereference of
`resp.StatusCode` when both `resp` and `err` are nil. -/
def DefaultRetryPolicy (ctxErr : Option GoError) (resp : Option HResponse)
    (err : Option GoError) : Option (Bool × Option GoError) :=
  match ctxErr with
  | some e => some (false, some e)
  | none =>
    match err with
    | some _ => some (true, none)
    | none =>
      match resp with
      | none => none
      | some r =>
        if r.statusCode = 429 then some (true, none)
        else if 500 ≤ r.statusCode ∧ r.statusCode ≠ 501 then some (true, none)
        else if r.statusCode = 0 then some (true, some (.unexpectedStatus r.status))
        else some (false, none)

/-- Embeds `middleware.DefaultBackoff` (middleware/retryable.go). The
`math.Pow`-based computation is modelled in exact integer arithmetic; the
source's `float64(sleep) != mult` guard only fires when that computation
overflows or rounds, in which case the source also returns `max`, which the
`mult > max` comparison below reproduces over the exact values. -/
def DefaultBackoff (min max : Int) (attemptNum : Nat) (resp : Option HResponse) : Int :=
  let exponential : Int :=
    let mult : Int := 2 ^ attemptNum * min
    if mult > max then max else mult
  match resp with
  | some r =>
    if r.statusCode = 429 ∨ r.statusCode = 503 then
      match r.retryAfter with
      | some s =>
        match parseGoInt s with
        | some sleep => 1000000000 * sleep
        | none => exponential
      | none => exponential
    else exponential
  | none => exponential

/-- Embeds `middleware.defaultIsSuccessful` (circuit breaker file): a call
is successful when its error is nil and `client.AssertStatusCode` accepts
its response. -/
def defaultIsSuccessful (resp : Option HResponse) (err : Option GoError) : Bool :=
  let assertErr := client.AssertStatusCode resp
  err = none ∧ assertErr = none

end middleware

namespace middleware

/-- Embeds `middleware.RetryConfig`. `CheckRetry` is the policy already
applied to the ambient context (`DefaultRetryPolicy` with a given
`ctxErr`, or any custom policy). -/
structure RetryConfig where
  RetryWaitMin : Int
  RetryWaitMax : Int
  RetryMax : Int
  CheckRetry : Option HResponse → Option GoError → Bool × Option GoError
  Backoff : Int → Int → Nat → Option HResponse → Int

/-- Outcome of the retry middleware: the returned response/error pair, the
final value of the `attempt` counter, and how often the wrapped responder
`next` was invoked. -/
structure RetryResult where
  resp : Option HResponse
  err : Option GoError
  attempt : Nat
  nextCalls : Nat
deriving DecidableEq, Repr

/-- Embeds the result composition after `RetryWithConfig`'s loop
(middleware/retryable.go): a success tuple when nothing failed and the
policy said stop; otherwise wrap whichever of policy/transport error is
non-nil (policy first) in a "giving up" error, and with both nil return
the last response with no error. -/
def finishRetry (method url : String) (resp : Option HResponse)
    (doErr checkErr : Option GoError) (shouldRetry : Bool) (attempt ncalls : Nat) :
    RetryResult :=
  if doErr = none ∧ checkErr = none ∧ shouldRetry = false then ⟨resp, none, attempt, ncalls⟩
  else
    let err : Option GoError :=
      match checkErr with
      | some e => some e
      | none => doErr
    match err with
    | none => ⟨resp, none, attempt, ncalls⟩
    | some e => ⟨none, some (.giveUpWrap method url attempt e), attempt, ncalls⟩

/-- Embeds `RetryWithConfig`'s attempt loop. `next i` is the outcome the
wrapped responder produces at iteration `i`; `body` is the request's
replayable body producer (`none` when the request has no body), modelled by
the error its `i`-th invocation yields; `ctxDone i` is the context error
when the ambient context fires during the backoff wait after iteration `i`
(`none` when the timer wins the select). The `RequestHook` and `drainBody`
calls are I/O without influence on the result and are dropped. The Go loop
always terminates because the `remain ≤ 0` exit is taken at the latest when
`i` reaches `RetryMax`, which is the termination measure used here. -/
def retryLoop (config : RetryConfig) (next : Nat → Option HResponse × Option GoError)
    (body : Option (Nat → Option GoError)) (ctxDone : Nat → Option GoError)
    (method url : String) (i attempt ncalls : Nat) (lastResp : Option HResponse) :
    RetryResult :=
  let attempt := attempt + 1
  let bodyErr : Option GoError :=
    match body with
    | some producer => producer i
    | none => none
  match bodyErr with
  | some e => ⟨lastResp, some e, attempt, ncalls⟩
  | none =>
    let r := next i
    let resp := r.1
    let doErr := r.2
    let c := config.CheckRetry resp doErr
    let shouldRetry := c.1
    let checkErr := c.2
    if shouldRetry = false then
      finishRetry method url resp doErr checkErr shouldRetry attempt (ncalls + 1)
    else if config.RetryMax - (i : Int) ≤ 0 then
      finishRetry method url resp doErr checkErr shouldRetry attempt (ncalls + 1)
    else
      let _wait := config.Backoff config.RetryWaitMin config.RetryWaitMax i resp
      match ctxDone i with
      | some e => ⟨none, some e, attempt, ncalls + 1⟩
      | none => retryLoop config next body ctxDone method url (i + 1) attempt (ncalls + 1) resp
termination_by (config.RetryMax + 1 - (i : Int)).toNat
decreasing_by simp_wf; omega

/-- Embeds the responder built by `middleware.RetryWithConfig` (the
`FromRequest` marshalling-failure early return concerns no claim and is
outside this model). -/
def RetryWithConfig (config : RetryConfig)
    (next : Nat → Option HResponse × Option GoError)
    (body : Option (Nat → Option GoError)) (ctxDone : Nat → Option GoError)
    (method url : String) : RetryResult :=
  retryLoop config next body ctxDone method url 0 0 0 none

end middleware

namespace retryablehttp

/-- Embeds `retryablehttp.DefaultRetryPolicy` (retryablehttp.go). It
differs from the middleware version in folding status 0 into the 5xx test
and attaching an "unexpected HTTP status" error to those retries. `none`
models the nil-pointer dereference when both `resp` and `err` are nil. -/
def DefaultRetryPolicy (ctxErr : Option GoError) (resp : Option HResponse)
    (err : Option GoError) : Option (Bool × Option GoError) :=
  match ctxErr with
  | some e => some (false, some e)
  | none =>
    match err with
    | some _ => some (true, none)
    | none =>
      match resp with
      | none => none
      | some r =>
        if r.statusCode = 429 then some (true, none)
        else if r.statusCode = 0 ∨ (500 ≤ r.statusCode ∧ r.statusCode ≠ 501) then
          some (true, some (.unexpectedStatus r.status))
        else some (false, none)

/-- Outcome of `retryablehttp.Client.Do`: the returned response/error, the
final `attempt` counter, and how often the underlying HTTP client was
invoked. -/
structure ClientDoResult where
  resp : Option HResponse
  err : Option GoError
  attempt : Nat
  ncalls : Nat
deriving DecidableEq, Repr

/-- Embeds the result composition after `Client.Do`'s loop
(retryablehttp.go): unlike the middleware version, when both errors are nil
in the failure branch it fabricates a bare "giving up" error with a nil
response. -/
def clientDoFinish (method url : String) (resp : Option HResponse)
    (doErr checkErr : Option GoError) (shouldRetry : Bool) (attempt ncalls : Nat) :
    ClientDoResult :=
  if doErr = none ∧ checkErr = none ∧ shouldRetry = false then ⟨resp, none, attempt, ncalls⟩
  else
    let err : Option GoError :=
      match checkErr with
      | some e => some e
      | none => doErr
    match err with
    | none => ⟨none, some (.giveUpBare method url attempt), attempt, ncalls⟩
    | some e => ⟨none, some (.giveUpWrap method url attempt e), attempt, ncalls⟩

/-- Embeds `Client.Do`'s attempt loop (retryablehttp.go). In the source the
entire per-attempt work — body rewind, request hook, the HTTP call, the
retry check and both `break`s — is nested inside `if req.body != nil`, so
with no body producer an iteration only increments `attempt` and the loop
can never exit; `fuel` makes that loop a total function, `none` meaning the
loop is still running after `fuel` iterations. Parameters are as in
`middleware.retryLoop`; `Client.Do` performs no backoff wait, so there is
no context selection point. -/
def clientDoLoop (RetryMax : Int)
    (checkRetry : Option HResponse → Option GoError → Bool × Option GoError)
    (next : Nat → Option HResponse × Option GoError)
    (body : Option (Nat → Option GoError)) (method url : String)
    (fuel i attempt ncalls : Nat) (lastResp : Option HResponse) :
    Option ClientDoResult :=
  match fuel with
  | 0 => none
  | fuel + 1 =>
    let attempt := attempt + 1
    match body with
    | none =>
      clientDoLoop RetryMax checkRetry next none method url fuel (i + 1) attempt ncalls lastResp
    | some producer =>
      match producer i with
      | some e => some ⟨lastResp, some e, attempt, ncalls⟩
      | none =>
        let r := next i
        let resp := r.1
        let doErr := r.2
        let c := checkRetry resp doErr
        let shouldRetry := c.1
        let checkErr := c.2
        if shouldRetry = false then
          some (clientDoFinish method url resp doErr checkErr shouldRetry attempt (ncalls + 1))
        else if RetryMax - (i : Int) ≤ 0 then
          some (clientDoFinish method url resp doErr checkErr shouldRetry attempt (ncalls + 1))
        else
          clientDoLoop RetryMax checkRetry next (some producer) method url fuel (i + 1) attempt
            (ncalls + 1) resp

/-- Embeds `(*Client).Do` as the loop started from its initial state. -/
def Do (RetryMax : Int)
    (checkRetry : Option HResponse → Option GoError → Bool × Option GoError)
    (next : Nat → Option HResponse × Option GoError)
    (body : Option (Nat → Option GoError)) (method url : String) (fuel : Nat) :
    Option ClientDoResult :=
  clientDoLoop RetryMax checkRetry next body method url fuel 0 0 0 none

end retryablehttp

namespace middleware

/-- Embeds `middleware.BearerToken`. -/
structure BearerToken where
  AccessToken : String
  ExpirationTokenTime : Nat
deriving DecidableEq, Repr

/-- Shared state of `OAuthService`: the cached token pointer and, as the
observable the claims are about, the number of outbound refresh calls
(`getBearerToken` invocations) made so far. -/
structure OAuthState where
  token : Option BearerToken
  refreshCalls : Nat
deriving DecidableEq, Repr

/-- Program counter of one `GetToken` caller. `GetToken` consists of two
lock-protected critical sections: the `RLock` read of the cache, and — when
that read produced an empty token — the `Lock` section that refreshes
unconditionally. `start` is before the read, `needRefresh` between the two
sections, `done r` after returning `r`. -/
inductive CallerPhase where
  | start
  | needRefresh
  | done (result : String)
deriving DecidableEq, Repr

/-- Embeds one critical section of `(*OAuthService).GetToken` (oauth.go).
`server c` is the token and `expires_in` (seconds) the OAuth endpoint
returns to the `c`-th refresh call; a refresh caches
`expiresAt = now + expires_in` and returns the fresh token. The source
takes the write lock without re-checking the cache, which is the behaviour
under test in C9. -/
def GetTokenStep (now : Nat) (server : Nat → String × Nat) (st : OAuthState)
    (c : CallerPhase) : OAuthState × CallerPhase :=
  match c with
  | .start =>
    let token : String :=
      match st.token with
      | some t => if now < t.ExpirationTokenTime then t.AccessToken else ""
      | none => ""
    if token = "" then (st, .needRefresh) else (st, .done token)
  | .needRefresh =>
    let r := server st.refreshCalls
    let t : BearerToken := ⟨r.1, now + r.2 * 1000000000⟩
    ({ token := some t, refreshCalls := st.refreshCalls + 1 }, .done t.AccessToken)
  | .done result => (st, .done result)

/-- Interleaved execution of two concurrent `GetToken` callers: `true`
schedules one critical section of caller 1, `false` one of caller 2. Each
step is a whole lock-protected section, so every schedule respects the
`RWMutex` (two reads may interleave; write sections are serialized). -/
def GetTokenRun (now : Nat) (server : Nat → String × Nat) :
    List Bool → OAuthState × CallerPhase × CallerPhase →
      OAuthState × CallerPhase × CallerPhase
  | [], s => s
  | pick :: rest, (st, c1, c2) =>
    if pick then
      let s1 := GetTokenStep now server st c1
      GetTokenRun now server rest (s1.1, s1.2, c2)
    else
      let s2 := GetTokenStep now server st c2
      GetTokenRun now server rest (s2.1, c1, s2.2)

end middleware

namespace middleware

/-- State of `CircuitBreakerService` (middleware circuit breaker file). -/
inductive CircuitBreakerState where
  | closed
  | halfOpen
  | open_
deriving DecidableEq, Repr

/-- Embeds `CircuitBreakerCounts`: five `uint32` counters. -/
structure CircuitBreakerCounts where
  Requests : Nat
  TotalSuccesses : Nat
  TotalFailures : Nat
  ConsecutiveSuccesses : Nat
  ConsecutiveFailures : Nat
deriving DecidableEq, Repr

namespace CircuitBreakerCounts

/-- Embeds `(*CircuitBreakerCounts).onRequest`. -/
def onRequest (c : CircuitBreakerCounts) : CircuitBreakerCounts :=
  { c with Requests := (c.Requests + 1) % 2 ^ 32 }

/-- Embeds `(*CircuitBreakerCounts).onSuccess`. -/
def onSuccess (c : CircuitBreakerCounts) : CircuitBreakerCounts :=
  { c with
    TotalSuccesses := (c.TotalSuccesses + 1) % 2 ^ 32
    ConsecutiveSuccesses := (c.ConsecutiveSuccesses + 1) % 2 ^ 32
    ConsecutiveFailures := 0 }

/-- Embeds `(*CircuitBreakerCounts).onFailure`. -/
def onFailure (c : CircuitBreakerCounts) : CircuitBreakerCounts :=
  { c with
    TotalFailures := (c.TotalFailures + 1) % 2 ^ 32
    ConsecutiveFailures := (c.ConsecutiveFailures + 1) % 2 ^ 32
    ConsecutiveSuccesses := 0 }

/-- Embeds `(*CircuitBreakerCounts).clear`. -/
def clear : CircuitBreakerCounts := ⟨0, 0, 0, 0, 0⟩

end CircuitBreakerCounts

/-- Mutable state of `CircuitBreakerService` together with its (post
`NewCircuitBreakerService`) configuration. `interval` and `timeout` are
non-negative after construction, hence `Nat`; `expiry` is an instant with
`0` standing for the Go zero time. The `onStateChange` observer callback
carries no breaker state and is dropped; the mutex is implicit in the
functions below each modelling one lock-protected critical section. -/
structure CircuitBreakerService where
  maxRequests : Nat
  interval : Nat
  timeout : Nat
  readyToTrip : CircuitBreakerCounts → Bool
  state : CircuitBreakerState
  generation : Nat
  counts : CircuitBreakerCounts
  expiry : Nat

namespace CircuitBreakerService

/-- Embeds `(*CircuitBreakerService).toNewGeneration`: bump the `uint64`
generation, clear the counts, and set the expiry for the current state. -/
def toNewGeneration (cb : CircuitBreakerService) (now : Nat) : CircuitBreakerService :=
  let cb := { cb with
    generation := (cb.generation + 1) % 2 ^ 64
    counts := CircuitBreakerCounts.clear }
  match cb.state with
  | .closed =>
    if cb.interval = 0 then { cb with expiry := 0 }
    else { cb with expiry := now + cb.interval }
  | .open_ => { cb with expiry := now + cb.timeout }
  | .halfOpen => { cb with expiry := 0 }

/-- Embeds `(*CircuitBreakerService).setState`: a no-op when the state is
unchanged, otherwise switch state and start a new generation. -/
def setState (cb : CircuitBreakerService) (s : CircuitBreakerState) (now : Nat) :
    CircuitBreakerService :=
  if cb.state = s then cb
  else toNewGeneration { cb with state := s } now

/-- Embeds `(*CircuitBreakerService).currentState`: lazily apply the
interval reset (Closed) or the open-timeout transition (Open), returning
the state, the generation, and the updated service. -/
def currentState (cb : CircuitBreakerService) (now : Nat) :
    CircuitBreakerState × Nat × CircuitBreakerService :=
  let cb' :=
    match cb.state with
    | .closed =>
      if cb.expiry ≠ 0 ∧ cb.expiry < now then toNewGeneration cb now else cb
    | .open_ =>
      if cb.expiry < now then setState cb .halfOpen now else cb
    | .halfOpen => cb
  (cb'.state, cb'.generation, cb')

/-- Embeds `(*CircuitBreakerService).beforeRequest`: the admission check.
Returns the admission-time generation, the rejection error if any, and the
updated service. -/
def beforeRequest (cb : CircuitBreakerService) (now : Nat) :
    Nat × Option GoError × CircuitBreakerService :=
  match cb.currentState now with
  | (state, generation, cb) =>
    if state = .open_ then (generation, some .openState, cb)
    else if state = .halfOpen ∧ cb.counts.Requests ≥ cb.maxRequests then
      (generation, some .tooManyRequests, cb)
    else (generation, none, { cb with counts := cb.counts.onRequest })

/-- Embeds `(*CircuitBreakerService).onSuccess`. -/
def onSuccess (cb : CircuitBreakerService) (state : CircuitBreakerState) (now : Nat) :
    CircuitBreakerService :=
  match state with
  | .closed => { cb with counts := cb.counts.onSuccess }
  | .halfOpen =>
    let cb := { cb with counts := cb.counts.onSuccess }
    if cb.counts.ConsecutiveSuccesses ≥ cb.maxRequests then cb.setState .closed now
    else cb
  | .open_ => cb

/-- Embeds `(*CircuitBreakerService).onFailure`. -/
def onFailure (cb : CircuitBreakerService) (state : CircuitBreakerState) (now : Nat) :
    CircuitBreakerService :=
  match state with
  | .closed =>
    let cb := { cb with counts := cb.counts.onFailure }
    if cb.readyToTrip cb.counts then cb.setState .open_ now
    else cb
  | .halfOpen => cb.setState .open_ now
  | .open_ => cb

/-- Embeds `(*CircuitBreakerService).afterRequest`: discard the report when
the generation changed since admission, otherwise record it. -/
def afterRequest (cb : CircuitBreakerService) (before : Nat) (success : Bool) (now : Nat) :
    CircuitBreakerService :=
  match cb.currentState now with
  | (state, generation, cb) =>
    if generation ≠ before then cb
    else if success then cb.onSuccess state now
    else cb.onFailure state now

end CircuitBreakerService

/-- Embeds `defaultReadyToTrip`. -/
def defaultReadyToTrip (counts : CircuitBreakerCounts) : Bool :=
  counts.ConsecutiveFailures > 5

/-- Result of one call through the breaker middleware: the response/error
returned to the caller, the breaker state afterwards, and whether the
wrapped responder was invoked. -/
structure ExecResult where
  resp : Option HResponse
  err : Option GoError
  cb : CircuitBreakerService
  nextInvoked : Bool

/-- Embeds one call through `(*CircuitBreakerService).Execute`'s responder:
admission check, the wrapped call (whose outcome is `next`), then the
completion report. `now` is the admission instant and `nowAfter` the
completion instant; `isSuccessful` is the configured predicate. -/
def CircuitBreakerService.Execute (cb : CircuitBreakerService)
    (isSuccessful : Option HResponse → Option GoError → Bool) (now nowAfter : Nat)
    (next : Option HResponse × Option GoError) : ExecResult :=
  match cb.beforeRequest now with
  | (_generation, some e, cb) => ⟨none, some e, cb, false⟩
  | (generation, none, cb) =>
    let result := next.1
    let err := next.2
    let cb := cb.afterRequest generation (isSuccessful result err) nowAfter
    ⟨result, err, cb, true⟩

end middleware

/-! Concrete sample inputs used by witnesses and counterexamples. -/

/-- A 429 response without a Retry-After header. -/
def resp429 : HResponse := ⟨429, "429 Too Many Requests", none⟩

/-- A 500 response. -/
def resp500 : HResponse := ⟨500, "500 Internal Server Error", none⟩

/-- A malformed response with status code 0. -/
def resp0 : HResponse := ⟨0, "", none⟩

/-- A plain 200 response. -/
def resp200 : HResponse := ⟨200, "200 OK", none⟩

/-- A check-retry policy that marks every outcome retryable with no policy
error (the shape `DefaultRetryPolicy` takes on 429 or 5xx). -/
def alwaysRetryPolicy : Option HResponse → Option GoError → Bool × Option GoError :=
  fun _ _ => (true, none)

/-- An ambient context that never fires during backoff waits. -/
def ctxNeverDone : Nat → Option GoError := fun _ => none

/-- A body producer whose every invocation succeeds. -/
def bodyOk : Nat → Option GoError := fun _ => none

/-- A wrapped call that always fails at the transport level. -/
def nextTransportErr : Nat → Option HResponse × Option GoError :=
  fun _ => (none, some (.transport "connection refused"))

/-- A wrapped call that always yields a 500 response with no transport
error. -/
def next500 : Nat → Option HResponse × Option GoError := fun _ => (some resp500, none)

/-- A wrapped call that always yields a 429 response with no transport
error. -/
def next429 : Nat → Option HResponse × Option GoError := fun _ => (some resp429, none)

/-- A retry middleware configuration with `RetryMax = 2` and the
always-retry policy. -/
def sampleRetryConfig : middleware.RetryConfig :=
  ⟨1000000000, 30000000000, 2, alwaysRetryPolicy, middleware.DefaultBackoff⟩

/-- A breaker resting in the Open state whose timeout has not elapsed at
instant 10 (expiry 1000). -/
def cbOpenStuck : middleware.CircuitBreakerService :=
  ⟨1, 0, 60000000000, middleware.defaultReadyToTrip, .open_, 3,
    middleware.CircuitBreakerCounts.clear, 1000⟩

/-- A breaker resting in the Open state whose timeout has elapsed at
instant 10 (expiry 5). -/
def cbOpenExpired : middleware.CircuitBreakerService :=
  ⟨1, 0, 60000000000, middleware.defaultReadyToTrip, .open_, 3,
    middleware.CircuitBreakerCounts.clear, 5⟩

/-- A Half-Open breaker with `maxRequests = 3` that has admitted three
requests, two of which already succeeded consecutively. -/
def cbHalfAlmost : middleware.CircuitBreakerService :=
  ⟨3, 0, 60000000000, middleware.defaultReadyToTrip, .halfOpen, 4, ⟨3, 2, 0, 2, 0⟩, 0⟩

/-- A Half-Open breaker with `maxRequests = 1` that has already admitted
one request. -/
def cbHalfFull : middleware.CircuitBreakerService :=
  ⟨1, 0, 60000000000, middleware.defaultReadyToTrip, .halfOpen, 4, ⟨1, 0, 0, 0, 0⟩, 0⟩

/-- A Closed breaker with no interval expiry pending, at generation 7. -/
def cbClosedIdle : middleware.CircuitBreakerService :=
  ⟨1, 0, 60000000000, middleware.defaultReadyToTrip, .closed, 7,
    middleware.CircuitBreakerCounts.clear, 0⟩

/-- An OAuth endpoint answering the first refresh with `tokenA` and every
later refresh with `tokenB`, both valid for 3600 seconds. -/
def oauthServer2 : Nat → String × Nat :=
  fun c => (if c = 0 then "tokenA" else "tokenB", 3600)


/-- A 503 response carrying a Retry-After header of 7 seconds. -/
def resp503Retry7 : HResponse := ⟨503, "503 Service Unavailable", some "7"⟩

/-- A 429 response carrying an unparseable Retry-After header. -/
def resp429BadRetry : HResponse := ⟨429, "429 Too Many Requests", some "soon"⟩

/-! Helper lemmas about the circuit breaker state machine. -/

namespace middleware.CircuitBreakerService

lemma toNewGeneration_state (cb : middleware.CircuitBreakerService) (now : Nat) :
    (cb.toNewGeneration now).state = cb.state := by
  unfold toNewGeneration
  cases h : cb.state <;> simp [h] <;> (try split) <;> rfl

lemma toNewGeneration_counts (cb : middleware.CircuitBreakerService) (now : Nat) :
    (cb.toNewGeneration now).counts = middleware.CircuitBreakerCounts.clear := by
  unfold toNewGeneration
  cases h : cb.state <;> simp [h] <;> (try split) <;> rfl

lemma toNewGeneration_maxRequests (cb : middleware.CircuitBreakerService) (now : Nat) :
    (cb.toNewGeneration now).maxRequests = cb.maxRequests := by
  unfold toNewGeneration
  cases h : cb.state <;> simp [h] <;> (try split) <;> rfl

lemma setState_state (cb : middleware.CircuitBreakerService)
    (s : middleware.CircuitBreakerState) (now : Nat) :
    (cb.setState s now).state = s := by
  unfold setState
  split
  · next h => exact h
  · rw [toNewGeneration_state]

lemma setState_counts (cb : middleware.CircuitBreakerService)
    (s : middleware.CircuitBreakerState) (now : Nat) (h : cb.state ≠ s) :
    (cb.setState s now).counts = middleware.CircuitBreakerCounts.clear := by
  unfold setState
  rw [if_neg h, toNewGeneration_counts]

lemma setState_maxRequests (cb : middleware.CircuitBreakerService)
    (s : middleware.CircuitBreakerState) (now : Nat) :
    (cb.setState s now).maxRequests = cb.maxRequests := by
  unfold setState
  split
  · rfl
  · rw [toNewGeneration_maxRequests]

lemma currentState_gen (cb : middleware.CircuitBreakerService) (now : Nat) :
    (cb.currentState now).2.1 = ((cb.currentState now).2.2).generation := by
  unfold currentState
  cases h : cb.state <;> simp [h]

lemma currentState_fst (cb : middleware.CircuitBreakerService) (now : Nat) :
    (cb.currentState now).1 = ((cb.currentState now).2.2).state := by
  unfold currentState
  cases h : cb.state <;> simp [h]

lemma currentState_maxRequests (cb : middleware.CircuitBreakerService) (now : Nat) :
    ((cb.currentState now).2.2).maxRequests = cb.maxRequests := by
  unfold currentState
  cases h : cb.state <;> simp [h]
  · split
    · rw [toNewGeneration_maxRequests]
    · rfl
  · split
    · rw [setState_maxRequests]
    · rfl

end middleware.CircuitBreakerService

/-- C1: the circuit breaker state machine follows the specified transition
relation — while Open, once the open timeout has elapsed, the next state
query returns Half-Open with counts reset to zero; while Half-Open,
reaching `maxRequests` consecutive successes transitions the breaker to
Closed, and any single failure immediately transitions it back to Open,
with counts reset to zero on every such transition. -/
theorem breaker_transition_relation :
    (∀ (cb : middleware.CircuitBreakerService) (now : Nat),
      cb.state = .open_ → cb.expiry < now →
        (cb.currentState now).1 = .halfOpen ∧
        ((cb.currentState now).2.2).counts = middleware.CircuitBreakerCounts.clear) ∧
    (∀ (cb : middleware.CircuitBreakerService) (now : Nat),
      cb.state = .halfOpen →
      cb.counts.ConsecutiveSuccesses + 1 < 2 ^ 32 →
      cb.maxRequests ≤ cb.counts.ConsecutiveSuccesses + 1 →
        (cb.onSuccess .halfOpen now).state = .closed ∧
        (cb.onSuccess .halfOpen now).counts = middleware.CircuitBreakerCounts.clear) ∧
    (∀ (cb : middleware.CircuitBreakerService) (now : Nat),
      cb.state = .halfOpen →
        (cb.onFailure .halfOpen now).state = .open_ ∧
        (cb.onFailure .halfOpen now).counts = middleware.CircuitBreakerCounts.clear) := by
  refine ⟨?_, ?_, ?_⟩
  · intro cb now hstate hexp
    unfold middleware.CircuitBreakerService.currentState
    simp only [hstate, if_pos hexp]
    refine ⟨middleware.CircuitBreakerService.setState_state cb _ now, ?_⟩
    exact middleware.CircuitBreakerService.setState_counts cb _ now
      (by rw [hstate]; decide)
  · intro cb now hstate hlt hge
    unfold middleware.CircuitBreakerService.onSuccess
    have hcs : (cb.counts.onSuccess).ConsecutiveSuccesses =
        cb.counts.ConsecutiveSuccesses + 1 := by
      unfold middleware.CircuitBreakerCounts.onSuccess
      exact Nat.mod_eq_of_lt hlt
    have hcond : ({ cb with counts := cb.counts.onSuccess } :
        middleware.CircuitBreakerService).counts.ConsecutiveSuccesses ≥
        ({ cb with counts := cb.counts.onSuccess } :
          middleware.CircuitBreakerService).maxRequests := by
      simpa [hcs] using hge
    simp only [if_pos hcond]
    refine ⟨middleware.CircuitBreakerService.setState_state _ _ _, ?_⟩
    exact middleware.CircuitBreakerService.setState_counts _ _ _ (by simp [hstate])
  · intro cb now hstate
    unfold middleware.CircuitBreakerService.onFailure
    refine ⟨middleware.CircuitBreakerService.setState_state _ _ _, ?_⟩
    exact middleware.CircuitBreakerService.setState_counts _ _ _ (by rw [hstate]; decide)

/-- Witness for C1 at concrete breakers: an expired Open breaker at instant
10, and a Half-Open breaker with two of three required consecutive
successes receiving a success resp. a failure. -/
theorem breaker_transition_relation_witness :
    ((cbOpenExpired.currentState 10).1 = .halfOpen ∧
      ((cbOpenExpired.currentState 10).2.2).counts = middleware.CircuitBreakerCounts.clear) ∧
    ((cbHalfAlmost.onSuccess .halfOpen 10).state = .closed ∧
      (cbHalfAlmost.onSuccess .halfOpen 10).counts = middleware.CircuitBreakerCounts.clear) ∧
    ((cbHalfFull.onFailure .halfOpen 10).state = .open_ ∧
      (cbHalfFull.onFailure .halfOpen 10).counts = middleware.CircuitBreakerCounts.clear) :=
  ⟨breaker_transition_relation.1 cbOpenExpired 10 rfl (by decide),
    breaker_transition_relation.2.1 cbHalfAlmost 10 rfl (by decide) (by decide),
    breaker_transition_relation.2.2 cbHalfFull 10 rfl⟩

/-- C2: a completion report whose admission-time generation differs from
the breaker's generation at reporting time is discarded — `afterRequest`
returns exactly the state produced by the pure `currentState` query, so the
current generation's counts are not altered by the stale completion. -/
theorem breaker_stale_generation_discarded
    (cb : middleware.CircuitBreakerService) (before : Nat) (success : Bool) (now : Nat)
    (h : ((cb.currentState now).2.2).generation ≠ before) :
    cb.afterRequest before success now = (cb.currentState now).2.2 := by
  unfold middleware.CircuitBreakerService.afterRequest
  rcases hcs : cb.currentState now with ⟨st, rest⟩
  rcases rest with ⟨gen, cb'⟩
  have hg : gen = cb'.generation := by
    have hgen := middleware.CircuitBreakerService.currentState_gen cb now
    rw [hcs] at hgen
    exact hgen
  rw [hcs] at h
  simp only [] at h
  simp [hg, h]

/-- Witness for C2: a Closed breaker at generation 7 receiving a success
report tagged with stale generation 3 is left exactly as the state query
leaves it. -/
theorem breaker_stale_generation_discarded_witness :
    ((cbClosedIdle.currentState 100).2.2).generation ≠ 3 ∧
    cbClosedIdle.afterRequest 3 true 100 = (cbClosedIdle.currentState 100).2.2 :=
  ⟨by decide, breaker_stale_generation_discarded cbClosedIdle 3 true 100 (by decide)⟩

/-- C8: whenever the breaker denies admission — every call while the
(lazily updated) state is Open, and any call while Half-Open once the
admitted request count has reached `maxRequests` — `Execute` returns the
corresponding rejection error (`ErrOpenState` resp. `ErrTooManyRequests`)
with a nil response, and the wrapped responder is never invoked. -/
theorem breaker_rejections :
    (∀ (cb : middleware.CircuitBreakerService)
      (isSuccessful : Option HResponse → Option GoError → Bool) (now nowAfter : Nat)
      (next : Option HResponse × Option GoError),
      (cb.currentState now).1 = .open_ →
        cb.Execute isSuccessful now nowAfter next =
          ⟨none, some .openState, (cb.currentState now).2.2, false⟩) ∧
    (∀ (cb : middleware.CircuitBreakerService)
      (isSuccessful : Option HResponse → Option GoError → Bool) (now nowAfter : Nat)
      (next : Option HResponse × Option GoError),
      (cb.currentState now).1 = .halfOpen →
      cb.maxRequests ≤ ((cb.currentState now).2.2).counts.Requests →
        cb.Execute isSuccessful now nowAfter next =
          ⟨none, some .tooManyRequests, (cb.currentState now).2.2, false⟩) := by
  constructor
  · intro cb isSuccessful now nowAfter next hopen
    unfold middleware.CircuitBreakerService.Execute
      middleware.CircuitBreakerService.beforeRequest
    rcases hcs : cb.currentState now with ⟨st, rest⟩
    rcases rest with ⟨gen, cb'⟩
    rw [hcs] at hopen
    simp only [] at hopen
    simp [hopen]
  · intro cb isSuccessful now nowAfter next hhalf hfull
    unfold middleware.CircuitBreakerService.Execute
      middleware.CircuitBreakerService.beforeRequest
    rcases hcs : cb.currentState now with ⟨st, rest⟩
    rcases rest with ⟨gen, cb'⟩
    rw [hcs] at hhalf hfull
    simp only [] at hhalf hfull
    have hmax : cb'.maxRequests = cb.maxRequests := by
      have hmr := middleware.CircuitBreakerService.currentState_maxRequests cb now
      rw [hcs] at hmr
      exact hmr
    have hge : cb'.counts.Requests ≥ cb'.maxRequests := by
      rw [hmax]
      exact hfull
    simp [hhalf, hge]

/-- Witness for C8: an Open breaker whose timeout has not elapsed rejects
with the open error, and a saturated Half-Open breaker rejects with the
too-many-requests error; in both cases with a nil response and without the
wrapped responder being invoked. -/
theorem breaker_rejections_witness :
    cbOpenStuck.Execute middleware.defaultIsSuccessful 10 11 (some resp200, none) =
      ⟨none, some .openState, (cbOpenStuck.currentState 10).2.2, false⟩ ∧
    cbHalfFull.Execute middleware.defaultIsSuccessful 10 11 (some resp200, none) =
      ⟨none, some .tooManyRequests, (cbHalfFull.currentState 10).2.2, false⟩ :=
  ⟨breaker_rejections.1 cbOpenStuck middleware.defaultIsSuccessful 10 11 (some resp200, none)
      (by decide),
    breaker_rejections.2 cbHalfFull middleware.defaultIsSuccessful 10 11 (some resp200, none)
      (by decide) (by decide)⟩

namespace middleware

lemma finishRetry_nextCalls (method url : String) (resp : Option HResponse)
    (doErr checkErr : Option GoError) (shouldRetry : Bool) (attempt ncalls : Nat) :
    (finishRetry method url resp doErr checkErr shouldRetry attempt ncalls).nextCalls =
      ncalls := by
  unfold finishRetry
  split
  · rfl
  · dsimp only
    split <;> rfl

lemma retryLoop_always_retry (config : RetryConfig)
    (next : Nat → Option HResponse × Option GoError)
    (body : Option (Nat → Option GoError)) (ctxDone : Nat → Option GoError)
    (method url : String)
    (hretry : ∀ j, (config.CheckRetry (next j).1 (next j).2).1 = true)
    (hbody : ∀ producer, body = some producer → ∀ j, producer j = none)
    (hctx : ∀ j, ctxDone j = none)
    (hmax : 0 ≤ config.RetryMax) :
    ∀ (d i attempt ncalls : Nat) (lastResp : Option HResponse),
      config.RetryMax.toNat - i = d → i ≤ config.RetryMax.toNat →
      retryLoop config next body ctxDone method url i attempt ncalls lastResp =
        finishRetry method url (next config.RetryMax.toNat).1
          (next config.RetryMax.toNat).2
          (config.CheckRetry (next config.RetryMax.toNat).1
            (next config.RetryMax.toNat).2).2
          true (attempt + d + 1) (ncalls + d + 1) := by
  intro d
  induction d with
  | zero =>
    intro i attempt ncalls lastResp hd hle
    have hi : i = config.RetryMax.toNat := by omega
    have hstop : config.RetryMax - (i : Int) ≤ 0 := by
      have := Int.toNat_of_nonneg hmax
      omega
    subst hi
    rw [retryLoop.eq_def]
    rcases hbd : body with _ | producer
    · simp [hstop, hretry config.RetryMax.toNat]
    · have hpr := hbody producer hbd config.RetryMax.toNat
      simp [hpr, hstop, hretry config.RetryMax.toNat]
  | succ d ih =>
    intro i attempt ncalls lastResp hd hle
    have hgo : ¬ config.RetryMax - (i : Int) ≤ 0 := by
      have := Int.toNat_of_nonneg hmax
      omega
    have hrec := ih (i + 1) (attempt + 1) (ncalls + 1) (next i).1 (by omega) (by omega)
    have ha : attempt + 1 + d + 1 = attempt + (d + 1) + 1 := by omega
    have hn : ncalls + 1 + d + 1 = ncalls + (d + 1) + 1 := by omega
    rw [ha, hn] at hrec
    rw [retryLoop.eq_def]
    rcases hbd : body with _ | producer
    · rw [hbd] at hrec
      simp [hgo, hctx i, hretry i]
      exact hrec
    · rw [hbd] at hrec
      have hpr := hbody producer hbd i
      simp [hpr, hgo, hctx i, hretry i]
      exact hrec

end middleware

/-- C3: in `retryablehttp.Client.Do` the whole loop body is nested inside
`if req.body != nil`, so on a request with no body producer the loop never
invokes the wrapped call and never exits: for every fuel bound the loop is
still running, uniformly in the wrapped call `next` and in the retry
policy, and likewise for `Do` itself. -/
theorem clientDo_nil_body_never_terminates :
    (∀ (RetryMax : Int)
      (checkRetry : Option HResponse → Option GoError → Bool × Option GoError)
      (next : Nat → Option HResponse × Option GoError) (method url : String)
      (fuel i attempt ncalls : Nat) (lastResp : Option HResponse),
      retryablehttp.clientDoLoop RetryMax checkRetry next none method url fuel i attempt
        ncalls lastResp = none) ∧
    (∀ (RetryMax : Int)
      (checkRetry : Option HResponse → Option GoError → Bool × Option GoError)
      (next : Nat → Option HResponse × Option GoError) (method url : String) (fuel : Nat),
      retryablehttp.Do RetryMax checkRetry next none method url fuel = none) := by
  have hmain : ∀ (RetryMax : Int)
      (checkRetry : Option HResponse → Option GoError → Bool × Option GoError)
      (next : Nat → Option HResponse × Option GoError) (method url : String)
      (fuel i attempt ncalls : Nat) (lastResp : Option HResponse),
      retryablehttp.clientDoLoop RetryMax checkRetry next none method url fuel i attempt
        ncalls lastResp = none := by
    intro RetryMax checkRetry next method url fuel
    induction fuel with
    | zero => intro i attempt ncalls lastResp; rfl
    | succ fuel ih =>
      intro i attempt ncalls lastResp
      exact ih (i + 1) (attempt + 1) ncalls lastResp
  exact ⟨hmain, fun RetryMax checkRetry next method url fuel =>
    hmain RetryMax checkRetry next method url fuel 0 0 0 none⟩

/-- C4: for every `RetryMax = N ≥ 0`, a persistently retryable failure —
the policy marks every outcome retryable, the body producer and the
ambient context never interfere — makes the middleware retry executor
invoke the wrapped call exactly `N + 1` times before giving up. -/
theorem retry_exhaustion_attempt_count (config : middleware.RetryConfig)
    (next : Nat → Option HResponse × Option GoError)
    (body : Option (Nat → Option GoError)) (ctxDone : Nat → Option GoError)
    (method url : String)
    (hretry : ∀ j, (config.CheckRetry (next j).1 (next j).2).1 = true)
    (hbody : ∀ producer, body = some producer → ∀ j, producer j = none)
    (hctx : ∀ j, ctxDone j = none)
    (hmax : 0 ≤ config.RetryMax) :
    (middleware.RetryWithConfig config next body ctxDone method url).nextCalls =
      config.RetryMax.toNat + 1 := by
  unfold middleware.RetryWithConfig
  rw [middleware.retryLoop_always_retry config next body ctxDone method url hretry hbody
    hctx hmax config.RetryMax.toNat 0 0 0 none (by omega) (by omega)]
  rw [middleware.finishRetry_nextCalls]
  omega

/-- Witness for C4: with `RetryMax = 2`, the always-retry policy and a
persistent transport failure, the wrapped call runs exactly 3 times. -/
theorem retry_exhaustion_attempt_count_witness :
    0 ≤ sampleRetryConfig.RetryMax ∧
    (middleware.RetryWithConfig sampleRetryConfig nextTransportErr none ctxNeverDone
      "GET" "https://api.example.com/users").nextCalls =
      sampleRetryConfig.RetryMax.toNat + 1 :=
  ⟨by decide,
    retry_exhaustion_attempt_count sampleRetryConfig nextTransportErr none ctxNeverDone
      "GET" "https://api.example.com/users" (fun _ => rfl) (fun _ h => nomatch h)
      (fun _ => rfl) (by decide)⟩

/-- C7 (amended): when the middleware retry loop exits through its failure
branch with both the transport error and the policy error nil (retries
exhausted, every outcome retryable, no error ever recorded), the middleware
retry executor returns the last response with a nil error rather than
fabricating one. (`retryablehttp.Client.Do`, also cited by the claim, does
not satisfy this: see the counterexample.) -/
theorem retry_exhaustion_no_error_result (config : middleware.RetryConfig)
    (next : Nat → Option HResponse × Option GoError)
    (body : Option (Nat → Option GoError)) (ctxDone : Nat → Option GoError)
    (method url : String)
    (hretry : ∀ j, (config.CheckRetry (next j).1 (next j).2).1 = true)
    (hpol : ∀ j, (config.CheckRetry (next j).1 (next j).2).2 = none)
    (hdo : ∀ j, (next j).2 = none)
    (hbody : ∀ producer, body = some producer → ∀ j, producer j = none)
    (hctx : ∀ j, ctxDone j = none)
    (hmax : 0 ≤ config.RetryMax) :
    middleware.RetryWithConfig config next body ctxDone method url =
      ⟨(next config.RetryMax.toNat).1, none, config.RetryMax.toNat + 1,
        config.RetryMax.toNat + 1⟩ := by
  unfold middleware.RetryWithConfig
  rw [middleware.retryLoop_always_retry config next body ctxDone method url hretry hbody
    hctx hmax config.RetryMax.toNat 0 0 0 none (by omega) (by omega)]
  unfold middleware.finishRetry
  have hp := hpol config.RetryMax.toNat
  rw [hdo config.RetryMax.toNat] at hp
  simp [hp, hdo config.RetryMax.toNat]

/-- Witness for C7's amended claim: `RetryMax = 2`, a body-carrying request,
persistent retryable 500 responses with no errors anywhere; the middleware
executor returns the last 500 response with a nil error after 3 attempts. -/
theorem retry_exhaustion_no_error_result_witness :
    middleware.RetryWithConfig sampleRetryConfig next500 (some bodyOk) ctxNeverDone
      "GET" "https://api.example.com/users" = ⟨some resp500, none, 3, 3⟩ := by
  exact retry_exhaustion_no_error_result sampleRetryConfig next500 (some bodyOk) ctxNeverDone
    "GET" "https://api.example.com/users" (fun _ => rfl) (fun _ => rfl) (fun _ => rfl)
    (fun _ h _ => by cases h; rfl) (fun _ => rfl) (by decide)

/-- Counterexample for C7 as stated: `retryablehttp.Client.Do` on a
body-carrying request with `RetryMax = 0`, a persistently retryable 429
outcome and no transport or policy error exits the loop's failure branch
with both errors nil, yet returns a nil response together with a fabricated
"giving up after 1 attempt(s)" error instead of the last response with a
nil error. -/
theorem clientDo_fabricated_giveup_counterexample :
    retryablehttp.Do 0 alwaysRetryPolicy next429 (some bodyOk) "GET"
      "https://api.example.com/users" 1 =
      some ⟨none, some (.giveUpBare "GET" "https://api.example.com/users" 1), 1, 1⟩ ∧
    some (GoError.giveUpBare "GET" "https://api.example.com/users" 1) ≠
      (none : Option GoError) :=
  ⟨rfl, by decide⟩

/-- C5: both default check-retry policies return no-retry with the
context's error when the ambient context already fired; retry on a
transport-level error; retry on status 429; retry on any status ≥ 500
except 501; retry on status 0; and no-retry for every other status. -/
theorem default_retry_policy_cases :
    (∀ (e : GoError) (resp : Option HResponse) (err : Option GoError),
      middleware.DefaultRetryPolicy (some e) resp err = some (false, some e) ∧
      retryablehttp.DefaultRetryPolicy (some e) resp err = some (false, some e)) ∧
    (∀ (resp : Option HResponse) (e : GoError),
      middleware.DefaultRetryPolicy none resp (some e) = some (true, none) ∧
      retryablehttp.DefaultRetryPolicy none resp (some e) = some (true, none)) ∧
    (∀ r : HResponse, r.statusCode = 429 →
      middleware.DefaultRetryPolicy none (some r) none = some (true, none) ∧
      retryablehttp.DefaultRetryPolicy none (some r) none = some (true, none)) ∧
    (∀ r : HResponse, 500 ≤ r.statusCode → r.statusCode ≠ 501 →
      (middleware.DefaultRetryPolicy none (some r) none).map Prod.fst = some true ∧
      (retryablehttp.DefaultRetryPolicy none (some r) none).map Prod.fst = some true) ∧
    (∀ r : HResponse, r.statusCode = 0 →
      (middleware.DefaultRetryPolicy none (some r) none).map Prod.fst = some true ∧
      (retryablehttp.DefaultRetryPolicy none (some r) none).map Prod.fst = some true) ∧
    (∀ r : HResponse, r.statusCode ≠ 429 → r.statusCode ≠ 0 →
      (r.statusCode < 500 ∨ r.statusCode = 501) →
      middleware.DefaultRetryPolicy none (some r) none = some (false, none) ∧
      retryablehttp.DefaultRetryPolicy none (some r) none = some (false, none)) := by
  refine ⟨?_, ?_, ?_, ?_, ?_, ?_⟩
  · intro e resp err
    exact ⟨rfl, rfl⟩
  · intro resp e
    exact ⟨rfl, rfl⟩
  · intro r h
    unfold middleware.DefaultRetryPolicy retryablehttp.DefaultRetryPolicy
    simp [h]
  · intro r h5 h501
    have h429 : r.statusCode ≠ 429 := by omega
    unfold middleware.DefaultRetryPolicy retryablehttp.DefaultRetryPolicy
    simp [h429, h5, h501]
  · intro r h0
    have h429 : r.statusCode ≠ 429 := by omega
    have h5 : ¬ (500 ≤ r.statusCode ∧ r.statusCode ≠ 501) := by omega
    unfold middleware.DefaultRetryPolicy retryablehttp.DefaultRetryPolicy
    simp [h429, h5, h0]
  · intro r h429 h0 hrest
    have h5 : ¬ (500 ≤ r.statusCode ∧ r.statusCode ≠ 501) := by omega
    unfold middleware.DefaultRetryPolicy retryablehttp.DefaultRetryPolicy
    simp [h429, h5, h0]

/-- Witness for C5 at concrete inputs: a fired context, a transport error,
and the statuses 429, 500, 0 and 200. -/
theorem default_retry_policy_cases_witness :
    (middleware.DefaultRetryPolicy (some .canceled) none none =
        some (false, some .canceled) ∧
      retryablehttp.DefaultRetryPolicy (some .canceled) none none =
        some (false, some .canceled)) ∧
    (middleware.DefaultRetryPolicy none none (some (.transport "connection refused")) =
        some (true, none) ∧
      retryablehttp.DefaultRetryPolicy none none (some (.transport "connection refused")) =
        some (true, none)) ∧
    (middleware.DefaultRetryPolicy none (some resp429) none = some (true, none) ∧
      retryablehttp.DefaultRetryPolicy none (some resp429) none = some (true, none)) ∧
    ((middleware.DefaultRetryPolicy none (some resp500) none).map Prod.fst = some true ∧
      (retryablehttp.DefaultRetryPolicy none (some resp500) none).map Prod.fst = some true) ∧
    ((middleware.DefaultRetryPolicy none (some resp0) none).map Prod.fst = some true ∧
      (retryablehttp.DefaultRetryPolicy none (some resp0) none).map Prod.fst = some true) ∧
    (middleware.DefaultRetryPolicy none (some resp200) none = some (false, none) ∧
      retryablehttp.DefaultRetryPolicy none (some resp200) none = some (false, none)) :=
  ⟨default_retry_policy_cases.1 .canceled none none,
    default_retry_policy_cases.2.1 none (.transport "connection refused"),
    default_retry_policy_cases.2.2.1 resp429 rfl,
    default_retry_policy_cases.2.2.2.1 resp500 (by decide) (by decide),
    default_retry_policy_cases.2.2.2.2.1 resp0 rfl,
    default_retry_policy_cases.2.2.2.2.2 resp200 (by decide) (by decide) (by decide)⟩

lemma backoff_cap_as_min (mult mx : Int) :
    (if mult > mx then mx else mult) = Min.min mx mult := by
  rcases le_or_lt mult mx with h | h
  · rw [if_neg (not_lt.mpr h), min_eq_right h]
  · rw [if_pos h, min_eq_left h.le]

/-- C6: the default backoff returns `min(max, min * 2^attemptNum)` for
every attempt number, except that when the response has status 429 or 503
and carries a Retry-After header parseable as an integer number of seconds
it returns exactly that many seconds; in particular with `min = 1s`,
`max = 30s` and no Retry-After header the wait over attempts 0,1,2,… is
1s, 2s, 4s, 8s, 16s and then 30s forever. -/
theorem default_backoff_spec :
    (∀ (mn mx : Int) (n : Nat) (r : HResponse) (s : String) (k : Int),
      (r.statusCode = 429 ∨ r.statusCode = 503) → r.retryAfter = some s →
      parseGoInt s = some k →
      middleware.DefaultBackoff mn mx n (some r) = 1000000000 * k) ∧
    (∀ (mn mx : Int) (n : Nat),
      middleware.DefaultBackoff mn mx n none = Min.min mx (2 ^ n * mn)) ∧
    (∀ (mn mx : Int) (n : Nat) (r : HResponse),
      ¬(r.statusCode = 429 ∨ r.statusCode = 503) →
      middleware.DefaultBackoff mn mx n (some r) = Min.min mx (2 ^ n * mn)) ∧
    (∀ (mn mx : Int) (n : Nat) (r : HResponse), r.retryAfter = none →
      middleware.DefaultBackoff mn mx n (some r) = Min.min mx (2 ^ n * mn)) ∧
    (∀ (mn mx : Int) (n : Nat) (r : HResponse) (s : String), r.retryAfter = some s →
      parseGoInt s = none →
      middleware.DefaultBackoff mn mx n (some r) = Min.min mx (2 ^ n * mn)) ∧
    (∀ n : Nat,
      middleware.DefaultBackoff 1000000000 30000000000 n none =
        if n < 5 then 2 ^ n * 1000000000 else 30000000000) := by
  refine ⟨?_, ?_, ?_, ?_, ?_, ?_⟩
  · intro mn mx n r s k hst hra hp
    unfold middleware.DefaultBackoff
    simp [hst, hra, hp]
  · intro mn mx n
    unfold middleware.DefaultBackoff
    simp [backoff_cap_as_min]
  · intro mn mx n r hst
    unfold middleware.DefaultBackoff
    simp [hst, backoff_cap_as_min]
  · intro mn mx n r hra
    unfold middleware.DefaultBackoff
    by_cases hst : r.statusCode = 429 ∨ r.statusCode = 503
    · simp [hst, hra, backoff_cap_as_min]
    · simp [hst, hra, backoff_cap_as_min]
  · intro mn mx n r s hra hp
    unfold middleware.DefaultBackoff
    by_cases hst : r.statusCode = 429 ∨ r.statusCode = 503
    · simp [hst, hra, hp, backoff_cap_as_min]
    · simp [hst, hra, backoff_cap_as_min]
  · intro n
    unfold middleware.DefaultBackoff
    by_cases h : n < 5
    · interval_cases n <;> decide
    · have h32 : (32 : Int) ≤ 2 ^ n := by
        calc (32 : Int) = 2 ^ 5 := by norm_num
        _ ≤ 2 ^ n := by
          apply pow_le_pow_right₀ (by norm_num) (by omega)
      have hge : (30000000000 : Int) < 2 ^ n * 1000000000 := by nlinarith
      simp [if_pos hge, if_neg h]

/-- Witness for C6: a 503 response with `Retry-After: 7` waits exactly 7
seconds; without a usable header (none present, wrong status, or
unparseable) the wait is the capped exponential; and the concrete `1s,30s`
sequence entry at attempt 3 is 8 seconds. -/
theorem default_backoff_spec_witness :
    middleware.DefaultBackoff 1000000000 30000000000 2 (some resp503Retry7) =
      1000000000 * 7 ∧
    middleware.DefaultBackoff 1000000000 30000000000 3 none =
      Min.min 30000000000 (2 ^ 3 * 1000000000) ∧
    middleware.DefaultBackoff 1000000000 30000000000 3 (some resp200) =
      Min.min 30000000000 (2 ^ 3 * 1000000000) ∧
    middleware.DefaultBackoff 1000000000 30000000000 3 (some resp429) =
      Min.min 30000000000 (2 ^ 3 * 1000000000) ∧
    middleware.DefaultBackoff 1000000000 30000000000 3 (some resp429BadRetry) =
      Min.min 30000000000 (2 ^ 3 * 1000000000) ∧
    middleware.DefaultBackoff 1000000000 30000000000 5 none =
      if 5 < 5 then 2 ^ 5 * 1000000000 else 30000000000 :=
  ⟨default_backoff_spec.1 1000000000 30000000000 2 resp503Retry7 "7" 7 (by decide) rfl
      (by decide),
    default_backoff_spec.2.1 1000000000 30000000000 3,
    default_backoff_spec.2.2.1 1000000000 30000000000 3 resp200 (by decide),
    default_backoff_spec.2.2.2.1 1000000000 30000000000 3 resp429 rfl,
    default_backoff_spec.2.2.2.2.1 1000000000 30000000000 3 resp429BadRetry "soon" rfl
      (by decide),
    default_backoff_spec.2.2.2.2.2 5⟩

/-- C9: under the legal schedule in which both callers execute their
read-locked cache check before either acquires the write lock, two
concurrent `GetToken` callers starting with no cached token make two
outbound refresh calls and end up with different tokens — the read-then-
upgrade pattern in `GetToken` performs no re-check after acquiring the
write lock, so concurrent expiry detection does not collapse into a single
refresh. -/
theorem oauth_duplicate_refresh_run :
    middleware.GetTokenRun 100 oauthServer2 [true, false, true, false]
      (⟨none, 0⟩, .start, .start) =
      (⟨some ⟨"tokenB", 3600000000100⟩, 2⟩, .done "tokenA", .done "tokenB") := by
  decide

/-- C10: the breaker's default success predicate classifies a completed
call with nil response and nil error as a success (the shared status
assertion returns no error for a nil response); with a response it accepts
exactly the statuses 200..299, 404 and 304, and any non-nil error makes the
call a failure. -/
theorem default_breaker_success_predicate :
    client.AssertStatusCode none = none ∧
    middleware.defaultIsSuccessful none none = true ∧
    (∀ (resp : Option HResponse) (e : GoError),
      middleware.defaultIsSuccessful resp (some e) = false) ∧
    (∀ r : HResponse,
      middleware.defaultIsSuccessful (some r) none = true ↔
        (200 ≤ r.statusCode ∧ r.statusCode ≤ 299) ∨ r.statusCode = 404 ∨
          r.statusCode = 304) := by
  refine ⟨rfl, rfl, ?_, ?_⟩
  · intro resp e
    unfold middleware.defaultIsSuccessful
    simp
  · intro r
    unfold middleware.defaultIsSuccessful client.AssertStatusCode
    by_cases hc : (200 ≤ r.statusCode ∧ r.statusCode ≤ 299) ∨ r.statusCode = 404 ∨
        r.statusCode = 304
    · simp [hc]
    · simp [hc]
